import Mathlib

/-!
# Verification of the link-sharing Telegram bot (`src/bot.py`)

A shallow embedding of the bot's in-memory state and handlers, with proofs
of the specification's testable properties.

Modelling conventions:
* Python dicts (`GROUP_LINKS`, `GROUP_INFO`, `LAST_MESSAGE_TIMES`) are
  association lists with unique-key update/delete operations, observed
  through lookup.
* The Python set `ACTIVE_GROUPS` is a duplicate-free list (`setAdd` inserts
  only when absent, `setDiscard` filters).
* Chat ids and user ids are `Int` (Telegram group ids are negative);
  timestamps (`datetime.now()`) are abstract `Int` values passed in.
* The Telegram transport (`bot.get_chat`, `bot.get_chat_administrators`,
  `bot.send_message`) is an oracle `Env`; a `none` / `true`-failure result
  models the call raising, which the source catches.
* `str.split()` (whitespace split, empties dropped) and `int(...)` on
  sign-and-digits tokens are modelled character-recursively below.
-/

/-- Python `str.split()` helper: accumulate a token, splitting on whitespace
characters and dropping empty tokens. -/
def splitWsAux : List Char → List Char → List String
  | [], acc => if acc.isEmpty then [] else [String.mk acc.reverse]
  | c :: cs, acc =>
      if c = ' ' ∨ c = '\t' ∨ c = '\n' ∨ c = '\r' then
        (if acc.isEmpty then [] else [String.mk acc.reverse]) ++ splitWsAux cs []
      else splitWsAux cs (c :: acc)

/-- Embeds `message.text.split()`: split on whitespace runs, no empty tokens. -/
def pySplit (s : String) : List String := splitWsAux s.data []

/-- Decimal digits to a natural number (accumulator form); `none` when a
non-digit character occurs. -/
def natOfDigitsAux : List Char → Nat → Option Nat
  | [], acc => some acc
  | c :: cs, acc =>
      if c.isDigit then natOfDigitsAux cs (acc * 10 + (c.toNat - 48)) else none

/-- A non-empty digit string to a natural number. -/
def natOfDigits : List Char → Option Nat
  | [] => none
  | cs => natOfDigitsAux cs 0

/-- Python `int(s)` on a whitespace-free token: optional sign followed by
digits; `none` models `ValueError`. (Tokens produced by `pySplit` contain no
whitespace, so `int`'s whitespace stripping is irrelevant here.) -/
def pyInt (s : String) : Option Int :=
  match s.data with
  | '-' :: rest => (natOfDigits rest).map (fun n => -(n : Int))
  | '+' :: rest => (natOfDigits rest).map (fun n => (n : Int))
  | cs => (natOfDigits cs).map (fun n => (n : Int))

/-- Character-list version of `startswith`. -/
def startsWithChars : List Char → List Char → Bool
  | [], _ => true
  | _ :: _, [] => false
  | p :: ps, c :: cs => p = c && startsWithChars ps cs

/-- Embeds `new_link.startswith(('http://', 'https://'))` from `set_link`. -/
def isHttpUrl (s : String) : Bool :=
  startsWithChars "http://".data s.data || startsWithChars "https://".data s.data

/-! ## Dictionary and set operations -/

/-- Python `d.get(k)` / `d[k]` observation on an association list. -/
def dictGet (k : Int) : List (Int × α) → Option α
  | [] => none
  | (k', v) :: rest => if k = k' then some v else dictGet k rest

/-- Python `del d[k]` (and the absent-key no-op): drop the binding of `k`. -/
def dictDel (k : Int) : List (Int × α) → List (Int × α)
  | [] => []
  | (k', v) :: rest =>
      if k' = k then dictDel k rest else (k', v) :: dictDel k rest

/-- Python `d[k] = v`: `k` is bound to `v` and to nothing else. -/
def dictSet (k : Int) (v : α) (d : List (Int × α)) : List (Int × α) :=
  (k, v) :: dictDel k d

/-- Number of bindings a key has in an association list. -/
def keyCount (k : Int) : List (Int × α) → Nat
  | [] => 0
  | (k', _) :: rest => (if k' = k then 1 else 0) + keyCount k rest

/-- Python `set.add`. -/
def setAdd (x : Int) (s : List Int) : List Int :=
  if x ∈ s then s else x :: s

/-- Python `set.discard`. -/
def setDiscard (x : Int) : List Int → List Int
  | [] => []
  | y :: rest => if y = x then setDiscard x rest else y :: setDiscard x rest

/-! ## Data model -/

/-- Telegram chat types relevant to `message.chat.type` checks. -/
inductive ChatType where
  | privateChat
  | group
  | supergroup
  | channel
deriving DecidableEq, Repr

/-- A chat, as seen through `bot.get_chat` / `message.chat`. -/
structure Chat where
  id : Int
  type : ChatType
  title : Option String
deriving DecidableEq, Repr

/-- An inbound command message. -/
structure Message where
  chat : Chat
  fromUserId : Int
  text : String
deriving DecidableEq, Repr

/-- A `GROUP_INFO` record: `{"title": ..., "link": ...}`. -/
structure GroupInfo where
  title : Option String
  link : Option String
deriving DecidableEq, Repr

/-- Process configuration from environment variables.  `DEFAULT_LINK =
os.getenv("DEFAULT_LINK")` is unvalidated and may be absent, hence
`Option String`. -/
structure Config where
  adminIds : List Int
  defaultLink : Option String
deriving Repr

/-- Embeds `MESSAGE_INTERVAL = int(os.getenv("MESSAGE_INTERVAL", 24)) * 3600`.
`envHours` is the integer value of the environment variable when it is set. -/
def initMessageInterval (envHours : Option Int) : Int :=
  envHours.getD 24 * 3600

/-- The transport oracle: results of Telegram API calls.  `none` (or a
`true` from `sendFails`) models the call raising an exception. -/
structure Env where
  chatAdmins : Int → Option (List Int)
  getChat : Int → Option Chat
  sendFails : Int → Bool

/-- The bot's in-memory mutable state: `ACTIVE_GROUPS`, `GROUP_LINKS`,
`GROUP_INFO`, `LAST_MESSAGE_TIMES`, and the (reassignable) global
`MESSAGE_INTERVAL`. -/
structure BotState where
  activeGroups : List Int
  groupLinks : List (Int × String)
  groupInfo : List (Int × GroupInfo)
  lastMessageTimes : List (Int × Int)
  messageInterval : Int
deriving Repr

/-- The state at process start. -/
def initState (envHours : Option Int) : BotState :=
  { activeGroups := []
    groupLinks := []
    groupInfo := []
    lastMessageTimes := []
    messageInterval := initMessageInterval envHours }

/-! ## Helper functions of the source -/

/-- Embeds `is_admin(user_id)`. -/
def is_admin (cfg : Config) (userId : Int) : Bool :=
  userId ∈ cfg.adminIds

/-- Embeds `is_group_admin(message)`: `False` outside groups/supergroups, `False`
when the administrator lookup raises, else membership in that list. -/
def is_group_admin (env : Env) (m : Message) : Bool :=
  if m.chat.type = ChatType.group ∨ m.chat.type = ChatType.supergroup then
    match env.chatAdmins m.chat.id with
    | none => false
    | some admins => m.fromUserId ∈ admins
  else
    false

/-- Embeds `GROUP_LINKS.get(chat_id, DEFAULT_LINK)`: the link `show_link`,
`send_link_to_group` and `send_welcome_and_link` all compute. -/
def getLink (cfg : Config) (s : BotState) (chatId : Int) : Option String :=
  match dictGet chatId s.groupLinks with
  | some l => some l
  | none => cfg.defaultLink

/-- Render an optional string the way a Python f-string renders the value. -/
def optStr : Option String → String
  | some s => s
  | none => "None"

/-- Embeds `send_link_to_group(chat_id)`: on send failure the chat is discarded
from `ACTIVE_GROUPS`; on success `LAST_MESSAGE_TIMES[chat_id]` is set. -/
def send_link_to_group (env : Env) (now : Int) (s : BotState) (chatId : Int) :
    BotState :=
  if env.sendFails chatId then
    { s with activeGroups := setDiscard chatId s.activeGroups }
  else
    { s with lastMessageTimes := dictSet chatId now s.lastMessageTimes }

/-- Embeds `send_welcome_and_link(chat_id)` (the later definition at the bottom of
the file, which is the one in effect at call time): fetch the chat, store a
fresh `GROUP_INFO` record whose link is `GROUP_LINKS.get(chat_id,
DEFAULT_LINK)`, send the welcome, and record the send time; a raise at any
point is swallowed, leaving the updates made so far. -/
def send_welcome_and_link (cfg : Config) (env : Env) (now : Int)
    (s : BotState) (chatId : Int) : BotState :=
  match env.getChat chatId with
  | none => s
  | some chat =>
    let s1 := { s with
      groupInfo := dictSet chatId
        { title := chat.title, link := getLink cfg s chatId } s.groupInfo }
    if env.sendFails chatId then s1
    else { s1 with lastMessageTimes := dictSet chatId now s1.lastMessageTimes }

/-! ## Command handlers

Each handler is `state → state × reply`, the reply being the string passed
to `bot.reply_to`. -/

/-- The fixed denial message of every admin-only handler. -/
def adminOnlyMsg : String := "🚫 Admin only command!"

/-- Handler `show_link` (`/link`). -/
def show_link (cfg : Config) (m : Message) (s : BotState) :
    BotState × String :=
  (s, "🔗 Current link:\n" ++ optStr (getLink cfg s m.chat.id))

/-- Handler `set_link` (`/setlink`): authorization, then `message.text.split()[1]`
(`IndexError` when absent), then the `http(s)://` check (`ValueError`),
then the `GROUP_LINKS` / `GROUP_INFO` updates. -/
def set_link (cfg : Config) (env : Env) (m : Message) (s : BotState) :
    BotState × String :=
  if ¬ (is_admin cfg m.fromUserId ∨ is_group_admin env m) then
    (s, adminOnlyMsg)
  else
    match (pySplit m.text).get? 1 with
    | none => (s, "Usage: /setlink https://example.com")
    | some new_link =>
      if isHttpUrl new_link then
        (( { s with
            groupLinks := dictSet m.chat.id new_link s.groupLinks
            groupInfo :=
              match dictGet m.chat.id s.groupInfo with
              | some info =>
                  dictSet m.chat.id { info with link := some new_link }
                    s.groupInfo
              | none => s.groupInfo } ),
         "✅ Link updated to:\n" ++ new_link)
      else
        (s, "Usage: /setlink https://example.com")

/-- Handler `default_link` (`/defaultlink`). -/
def default_link (cfg : Config) (env : Env) (m : Message) (s : BotState) :
    BotState × String :=
  if ¬ (is_admin cfg m.fromUserId ∨ is_group_admin env m) then
    (s, adminOnlyMsg)
  else
    (( { s with
        groupLinks := dictDel m.chat.id s.groupLinks
        groupInfo :=
          match dictGet m.chat.id s.groupInfo with
          | some info =>
              dictSet m.chat.id { info with link := cfg.defaultLink }
                s.groupInfo
          | none => s.groupInfo } ),
     "✅ Reset to default link:\n" ++ optStr cfg.defaultLink)

/-- Handler `set_interval` (`/interval`): parse `int(message.text.split()[1])`
(`IndexError` / `ValueError` give the usage reply), then reassign the global
`MESSAGE_INTERVAL` to `hours * 3600`. -/
def set_interval (cfg : Config) (env : Env) (m : Message) (s : BotState) :
    BotState × String :=
  if ¬ (is_admin cfg m.fromUserId ∨ is_group_admin env m) then
    (s, adminOnlyMsg)
  else
    match (pySplit m.text).get? 1 with
    | none => (s, "Usage: /interval 24 (sets to 24 hours)")
    | some tok =>
      match pyInt tok with
      | none => (s, "Usage: /interval 24 (sets to 24 hours)")
      | some hours =>
          ({ s with messageInterval := hours * 3600 },
           "⏰ Posting interval set to " ++ toString hours ++ " hours")

/-- Embeds `get_next_post_time(chat_id)`; the timestamp is rendered with
`toString` in place of `strftime`. -/
def get_next_post_time (s : BotState) (chatId : Int) : String :=
  match dictGet chatId s.lastMessageTimes with
  | none => "soon (not posted yet)"
  | some t => toString (t + s.messageInterval)

/-- Handler `show_stats` (`/stats`): process-wide admins only; reads state, mutates
nothing. -/
def show_stats (cfg : Config) (m : Message) (s : BotState) :
    BotState × String :=
  if ¬ is_admin cfg m.fromUserId then
    (s, adminOnlyMsg)
  else
    (s,
     "📊 Bot Statistics:\n\n• Active groups: "
       ++ toString s.activeGroups.length
       ++ "\n• Posting interval: " ++ toString (Int.fdiv s.messageInterval 3600)
       ++ " hours\n• Next post here: " ++ get_next_post_time s m.chat.id
       ++ "\n\n📋 Group Links:\n"
       ++ String.join (s.groupInfo.map (fun p =>
            "\n- " ++ optStr p.2.title ++ ": " ++ optStr p.2.link)))

/-! ## Membership watcher -/

/-- Handler `new_member` on a `new_chat_members` event naming the bot (the first
registered handler is the one pyTelegramBotAPI dispatches; it adds the chat
to `ACTIVE_GROUPS` and calls `send_welcome_and_link`). -/
def new_member (cfg : Config) (env : Env) (now : Int) (s : BotState)
    (chatId : Int) : BotState :=
  send_welcome_and_link cfg env now
    { s with activeGroups := setAdd chatId s.activeGroups } chatId

/-- Handler `left_member` on a `left_chat_member` event naming the bot: discard from
`ACTIVE_GROUPS` and delete the `GROUP_INFO` record (`GROUP_LINKS` is left
untouched). -/
def left_member (s : BotState) (chatId : Int) : BotState :=
  { s with
    activeGroups := setDiscard chatId s.activeGroups
    groupInfo := dictDel chatId s.groupInfo }

/-! ## Periodic broadcaster -/

/-- One pass of `send_links_periodically`'s inner `for` loop over a
point-in-time copy `list(ACTIVE_GROUPS)`; returns the resulting state and
the ids a send was attempted to, in order. -/
def broadcastAux (env : Env) (now : Int) :
    List Int → BotState → BotState × List Int
  | [], s => (s, [])
  | g :: rest, s =>
      let r := broadcastAux env now rest (send_link_to_group env now s g)
      (r.1, g :: r.2)

/-- A full broadcast pass: iterate `list(ACTIVE_GROUPS)`. -/
def broadcastPass (env : Env) (now : Int) (s : BotState) :
    BotState × List Int :=
  broadcastAux env now s.activeGroups s

/-- Observable actions of the broadcaster loop. -/
inductive BAction where
  | send (chatId : Int)
  | sleep (secs : Int)
deriving DecidableEq, Repr

/-- The action trace of `n` iterations of `send_links_periodically`'s
`while True` body: each iteration attempts a send to every id in the
point-in-time copy of the active set, and only then reaches
`time.sleep(MESSAGE_INTERVAL)`. -/
def loopActions (env : Env) (now : Int) : Nat → BotState → List BAction
  | 0, _ => []
  | n + 1, s =>
      let copy := s.activeGroups
      let s' := (broadcastPass env now s).1
      copy.map BAction.send ++ [BAction.sleep s'.messageInterval]
        ++ loopActions env now n s'

/-! ## Event dispatch and reachability -/

/-- Inbound events: a command message, the bot being added to or removed
from a chat, and a broadcaster pass. -/
inductive Event where
  | command (m : Message)
  | botAdded (chatId : Int) (now : Int)
  | botRemoved (chatId : Int)
  | tick (now : Int)

/-- Dispatch of a command message by its first token (the mutation part;
replies are dropped). Commands with no handler, and the read-only
handlers, leave the state unchanged. -/
def handleMessage (cfg : Config) (env : Env) (m : Message) (s : BotState) :
    BotState :=
  match (pySplit m.text).head? with
  | none => s
  | some t =>
    if t = "/setlink" then (set_link cfg env m s).1
    else if t = "/defaultlink" then (default_link cfg env m s).1
    else if t = "/interval" then (set_interval cfg env m s).1
    else if t = "/stats" then (show_stats cfg m s).1
    else if t = "/link" then (show_link cfg m s).1
    else s

/-- One step of the whole system. -/
def step (cfg : Config) (env : Env) (s : BotState) : Event → BotState
  | Event.command m => handleMessage cfg env m s
  | Event.botAdded chatId now => new_member cfg env now s chatId
  | Event.botRemoved chatId => left_member s chatId
  | Event.tick now => (broadcastPass env now s).1

/-- Run a sequence of events from a state. -/
def run (cfg : Config) (env : Env) (s : BotState) (evs : List Event) :
    BotState :=
  evs.foldl (step cfg env) s

/-- The data invariant behind §3 of the specification, restricted to what
the code maintains: every stored `GROUP_LINKS` override passes the
`http(s)://` check. -/
def overridesValid (s : BotState) : Prop :=
  ∀ k v, dictGet k s.groupLinks = some v → isHttpUrl v = true

/-! ## Concrete fixtures used by witnesses and counterexamples -/

/-- A transport oracle where every call succeeds: user 9 administers every
group, every chat is a group titled "G", sends never fail. -/
def envOk : Env :=
  { chatAdmins := fun _ => some [9]
    getChat := fun i =>
      some { id := i, type := ChatType.group, title := some "G" }
    sendFails := fun _ => false }

/-- A transport oracle where sends to chat 2 fail and everything else
succeeds. -/
def envFail2 : Env :=
  { envOk with sendFails := fun c => decide (c = 2) }

/-- Configuration: user 7 is the process-wide admin. -/
def cfgW : Config :=
  { adminIds := [7], defaultLink := some "https://default.example" }

/-- Configuration whose default link fails the URL shape (nothing in the
source validates `DEFAULT_LINK`). -/
def cfgBadDefault : Config :=
  { adminIds := [7], defaultLink := some "not-a-url" }

/-- A `/setlink` with an argument failing the `http(s)://` check, sent by
the process-wide admin from a group chat. -/
def mBadUrl : Message :=
  { chat := { id := 5, type := ChatType.group, title := some "G" }
    fromUserId := 7
    text := "/setlink notaurl" }

/-- A command message from a user who is neither a process-wide admin nor a
chat-level admin. -/
def mNonAdmin : Message :=
  { chat := { id := 5, type := ChatType.group, title := some "G" }
    fromUserId := 3
    text := "/setlink https://x" }

/-- Message `/setlink https://a` by the process-wide admin in chat 5. -/
def mSetA : Message :=
  { chat := { id := 5, type := ChatType.group, title := some "G" }
    fromUserId := 7
    text := "/setlink https://a" }

/-- Message `/defaultlink` by the process-wide admin in chat 5. -/
def mReset : Message :=
  { chat := { id := 5, type := ChatType.group, title := some "G" }
    fromUserId := 7
    text := "/defaultlink" }

/-- Message `/setlink https://custom.example` by the process-wide admin in chat 5. -/
def mSetCustom : Message :=
  { chat := { id := 5, type := ChatType.group, title := some "G" }
    fromUserId := 7
    text := "/setlink https://custom.example" }

/-- Messages `/interval 1`, `/interval 0` and `/interval -3` by the process-wide
admin in chat 5. -/
def mInterval1 : Message :=
  { chat := { id := 5, type := ChatType.group, title := some "G" }
    fromUserId := 7
    text := "/interval 1" }

def mInterval0 : Message :=
  { chat := { id := 5, type := ChatType.group, title := some "G" }
    fromUserId := 7
    text := "/interval 0" }

def mIntervalNeg : Message :=
  { chat := { id := 5, type := ChatType.group, title := some "G" }
    fromUserId := 7
    text := "/interval -3" }

/-- Message `/setlink https://x` by the process-wide admin from a private chat. -/
def mPrivSet : Message :=
  { chat := { id := 5, type := ChatType.privateChat, title := none }
    fromUserId := 7
    text := "/setlink https://x" }

/-- Bot added to chat 5, a custom link set, the bot removed, then re-added:
the removal/re-add scenario of the membership watcher. -/
def evsC1 : List Event :=
  [Event.botAdded 5 10,
   Event.command mSetCustom,
   Event.botRemoved 5,
   Event.botAdded 5 20]

/-- A single authorized `/setlink` from a private chat that was never
activated. -/
def evsPriv : List Event :=
  [Event.command mPrivSet]

/-- A state with one active group and the default 24-hour interval. -/
def sOne : BotState :=
  { activeGroups := [1]
    groupLinks := []
    groupInfo := []
    lastMessageTimes := []
    messageInterval := 86400 }

/-- A state with three active groups. -/
def sThree : BotState :=
  { activeGroups := [1, 2, 3]
    groupLinks := []
    groupInfo := []
    lastMessageTimes := []
    messageInterval := 3600 }

/-- A state in which chat 5 is active and holds a custom override. -/
def sOv : BotState :=
  { activeGroups := [5]
    groupLinks := [(5, "https://a")]
    groupInfo := [(5, { title := some "G", link := some "https://a" })]
    lastMessageTimes := [(5, 10)]
    messageInterval := 3600 }

/-! ## Dictionary and set lemmas -/

theorem dictGet_dictDel_self (k : Int) (d : List (Int × α)) :
    dictGet k (dictDel k d) = none := by
  induction d with
  | nil => rfl
  | cons p rest ih =>
    obtain ⟨k', v⟩ := p
    by_cases h : k' = k
    · simp [dictDel, h, ih]
    · have h' : ¬ k = k' := fun hk => h hk.symm
      simp [dictDel, dictGet, h, h', ih]

theorem dictGet_dictDel_ne (k k' : Int) (d : List (Int × α)) (h : k ≠ k') :
    dictGet k (dictDel k' d) = dictGet k d := by
  induction d with
  | nil => rfl
  | cons p rest ih =>
    obtain ⟨k'', v⟩ := p
    by_cases h2 : k'' = k'
    · have h3 : ¬ k = k'' := fun hk => h (hk.trans h2)
      simp [dictDel, dictGet, h2, h3, h, ih]
    · by_cases h3 : k = k'' <;> simp [dictDel, dictGet, h2, h3, ih]

theorem dictGet_dictSet (k k' : Int) (v : α) (d : List (Int × α)) :
    dictGet k (dictSet k' v d) = if k = k' then some v else dictGet k d := by
  by_cases h : k = k'
  · simp [dictSet, dictGet, h]
  · simp [dictSet, dictGet, h, dictGet_dictDel_ne k k' d h]

theorem keyCount_dictDel_self (k : Int) (d : List (Int × α)) :
    keyCount k (dictDel k d) = 0 := by
  induction d with
  | nil => rfl
  | cons p rest ih =>
    obtain ⟨k', v⟩ := p
    by_cases h : k' = k <;> simp [dictDel, keyCount, h, ih]

theorem keyCount_dictSet_self (k : Int) (v : α) (d : List (Int × α)) :
    keyCount k (dictSet k v d) = 1 := by
  simp [dictSet, keyCount, keyCount_dictDel_self]

theorem not_mem_setDiscard (x : Int) (s : List Int) :
    x ∉ setDiscard x s := by
  induction s with
  | nil => simp [setDiscard]
  | cons y rest ih =>
    by_cases h : y = x
    · simpa [setDiscard, h] using ih
    · simp [setDiscard, h, ih]
      exact fun hx => h hx.symm

theorem mem_setDiscard_of_mem (x y : Int) (s : List Int) (hne : y ≠ x)
    (hy : y ∈ s) : y ∈ setDiscard x s := by
  induction s with
  | nil => simp at hy
  | cons z rest ih =>
    rcases List.mem_cons.mp hy with hz | hz
    · subst hz
      simp [setDiscard, hne]
    · by_cases h : z = x <;> simp [setDiscard, h, ih hz]

theorem mem_of_mem_setDiscard (x y : Int) (s : List Int)
    (hy : y ∈ setDiscard x s) : y ∈ s := by
  induction s with
  | nil => simp [setDiscard] at hy
  | cons z rest ih =>
    by_cases h : z = x
    · simp only [setDiscard, if_pos h] at hy
      exact List.mem_cons_of_mem _ (ih hy)
    · simp only [setDiscard, if_neg h] at hy
      rcases List.mem_cons.mp hy with hz | hz
      · exact hz ▸ List.mem_cons_self _ _
      · exact List.mem_cons_of_mem _ (ih hz)

/-! ## Broadcaster lemmas -/

theorem send_link_groupLinks (env : Env) (now : Int) (s : BotState)
    (c : Int) : (send_link_to_group env now s c).groupLinks = s.groupLinks := by
  unfold send_link_to_group
  split <;> rfl

theorem send_link_groupInfo (env : Env) (now : Int) (s : BotState)
    (c : Int) : (send_link_to_group env now s c).groupInfo = s.groupInfo := by
  unfold send_link_to_group
  split <;> rfl

theorem send_link_messageInterval (env : Env) (now : Int) (s : BotState)
    (c : Int) :
    (send_link_to_group env now s c).messageInterval = s.messageInterval := by
  unfold send_link_to_group
  split <;> rfl

theorem send_link_active_mono (env : Env) (now : Int) (s : BotState)
    (c g : Int) (hg : g ∈ (send_link_to_group env now s c).activeGroups) :
    g ∈ s.activeGroups := by
  unfold send_link_to_group at hg
  split at hg
  · exact mem_of_mem_setDiscard c g s.activeGroups hg
  · exact hg

theorem send_link_fail_removes (env : Env) (now : Int) (s : BotState)
    (g : Int) (hfail : env.sendFails g = true) :
    g ∉ (send_link_to_group env now s g).activeGroups := by
  unfold send_link_to_group
  simp [hfail]
  exact not_mem_setDiscard g s.activeGroups

theorem broadcastAux_attempts (env : Env) (now : Int) (l : List Int)
    (s : BotState) : (broadcastAux env now l s).2 = l := by
  induction l generalizing s with
  | nil => rfl
  | cons g rest ih => simp [broadcastAux, ih]

theorem broadcastAux_groupLinks (env : Env) (now : Int) (l : List Int)
    (s : BotState) : (broadcastAux env now l s).1.groupLinks = s.groupLinks := by
  induction l generalizing s with
  | nil => rfl
  | cons g rest ih => simp [broadcastAux, ih, send_link_groupLinks]

theorem broadcastAux_messageInterval (env : Env) (now : Int) (l : List Int)
    (s : BotState) :
    (broadcastAux env now l s).1.messageInterval = s.messageInterval := by
  induction l generalizing s with
  | nil => rfl
  | cons g rest ih => simp [broadcastAux, ih, send_link_messageInterval]

theorem broadcastAux_not_active (env : Env) (now : Int) (l : List Int)
    (s : BotState) (g : Int) (hg : g ∉ s.activeGroups) :
    g ∉ (broadcastAux env now l s).1.activeGroups := by
  induction l generalizing s with
  | nil => exact hg
  | cons c rest ih =>
    simp only [broadcastAux]
    exact ih _ (fun hmem => hg (send_link_active_mono env now s c g hmem))

theorem broadcastAux_fail_removed (env : Env) (now : Int) (l₁ l₂ : List Int)
    (g : Int) (s : BotState) (hfail : env.sendFails g = true) :
    g ∉ (broadcastAux env now (l₁ ++ g :: l₂) s).1.activeGroups := by
  induction l₁ generalizing s with
  | nil =>
    simp only [List.nil_append, broadcastAux]
    exact broadcastAux_not_active env now l₂ _ g
      (send_link_fail_removes env now s g hfail)
  | cons c rest ih =>
    simp only [List.cons_append, broadcastAux]
    exact ih _

theorem broadcastPass_messageInterval (env : Env) (now : Int) (s : BotState) :
    (broadcastPass env now s).1.messageInterval = s.messageInterval :=
  broadcastAux_messageInterval env now s.activeGroups s

theorem broadcastPass_attempts (env : Env) (now : Int) (s : BotState) :
    (broadcastPass env now s).2 = s.activeGroups :=
  broadcastAux_attempts env now s.activeGroups s

/-! ## Claim theorems -/

/-- C3: for an authorized caller, `/setlink` with a missing argument or one
failing the `http(s)://` check replies with the usage error and leaves the
state (hence `getLink`) unchanged; when the check passes, the stored URL is
exactly the first whitespace-delimited token after the command. -/
theorem setlink_rejects_invalid (cfg : Config) (env : Env) (m : Message)
    (s : BotState)
    (hauth : (is_admin cfg m.fromUserId || is_group_admin env m) = true) :
    ((∀ u, (pySplit m.text).get? 1 = some u → isHttpUrl u = false) →
        set_link cfg env m s = (s, "Usage: /setlink https://example.com")) ∧
    (∀ u, (pySplit m.text).get? 1 = some u → isHttpUrl u = true →
        dictGet m.chat.id (set_link cfg env m s).1.groupLinks = some u) := by
  have hA : is_admin cfg m.fromUserId = true ∨ is_group_admin env m = true := by
    simpa using hauth
  constructor
  · intro hbad
    unfold set_link
    rw [if_neg (not_not_intro hA)]
    cases heq : (pySplit m.text).get? 1 with
    | none => simp
    | some u => simp [hbad u heq]
  · intro u hu hvalid
    unfold set_link
    rw [if_neg (not_not_intro hA), hu]
    simp [hvalid, dictGet_dictSet]

/-- Witness for C3 at a concrete invalid input. -/
theorem setlink_rejects_invalid_witness :
    set_link cfgW envOk mBadUrl (initState none)
      = (initState none, "Usage: /setlink https://example.com") := by
  have h := setlink_rejects_invalid cfgW envOk mBadUrl (initState none)
    (by decide)
  refine h.1 ?_
  intro u hu
  have e : (pySplit mBadUrl.text).get? 1 = some "notaurl" := by decide
  rw [e] at hu
  have : u = "notaurl" := (Option.some.inj hu).symm
  subst this
  decide

/-- C4: a caller who is neither a process-wide admin nor a chat-level admin
gets the fixed denial reply from `/setlink`, `/defaultlink`, `/interval`
and `/stats`, with the state returned untouched, whatever the message
text. -/
theorem unauthorized_commands_no_mutation (cfg : Config) (env : Env)
    (m : Message) (s : BotState)
    (h1 : is_admin cfg m.fromUserId = false)
    (h2 : is_group_admin env m = false) :
    set_link cfg env m s = (s, adminOnlyMsg) ∧
    default_link cfg env m s = (s, adminOnlyMsg) ∧
    set_interval cfg env m s = (s, adminOnlyMsg) ∧
    show_stats cfg m s = (s, adminOnlyMsg) := by
  refine ⟨?_, ?_, ?_, ?_⟩ <;>
    simp [set_link, default_link, set_interval, show_stats, h1, h2]

/-- Witness for C4: user 3 (no admin rights anywhere) is denied. -/
theorem unauthorized_commands_no_mutation_witness :
    set_link cfgW envOk mNonAdmin (initState none)
        = (initState none, adminOnlyMsg) ∧
    default_link cfgW envOk mNonAdmin (initState none)
        = (initState none, adminOnlyMsg) ∧
    set_interval cfgW envOk mNonAdmin (initState none)
        = (initState none, adminOnlyMsg) ∧
    show_stats cfgW mNonAdmin (initState none)
        = (initState none, adminOnlyMsg) :=
  unauthorized_commands_no_mutation cfgW envOk mNonAdmin (initState none)
    (by decide) (by decide)

/-- C6: an authorized `/setlink` with a valid URL followed by an authorized
`/defaultlink` in the same chat leaves `getLink` at `Config.defaultLink`,
exactly as if no override had ever been set. -/
theorem setlink_then_defaultlink_restores (cfg : Config) (env : Env)
    (m1 m2 : Message) (s : BotState) (u : String)
    (hid : m2.chat.id = m1.chat.id)
    (hauth1 : (is_admin cfg m1.fromUserId || is_group_admin env m1) = true)
    (hauth2 : (is_admin cfg m2.fromUserId || is_group_admin env m2) = true)
    (hu : (pySplit m1.text).get? 1 = some u)
    (hvalid : isHttpUrl u = true) :
    getLink cfg (set_link cfg env m1 s).1 m1.chat.id = some u ∧
    getLink cfg (default_link cfg env m2 (set_link cfg env m1 s).1).1
        m1.chat.id
      = cfg.defaultLink := by
  have hA1 : is_admin cfg m1.fromUserId = true ∨ is_group_admin env m1 = true := by
    simpa using hauth1
  have hA2 : is_admin cfg m2.fromUserId = true ∨ is_group_admin env m2 = true := by
    simpa using hauth2
  constructor
  · unfold set_link
    rw [if_neg (not_not_intro hA1), hu]
    simp [hvalid, getLink, dictGet_dictSet]
  · unfold default_link
    rw [if_neg (not_not_intro hA2)]
    simp [getLink, hid, dictGet_dictDel_self]

/-- Witness for C6 at the spec's own scenario. -/
theorem setlink_then_defaultlink_restores_witness :
    getLink cfgW (set_link cfgW envOk mSetA (initState none)).1 5
        = some "https://a" ∧
    getLink cfgW
        (default_link cfgW envOk mReset
          (set_link cfgW envOk mSetA (initState none)).1).1 5
      = cfgW.defaultLink :=
  setlink_then_defaultlink_restores cfgW envOk mSetA mReset (initState none)
    "https://a" rfl (by decide) (by decide) (by decide) (by decide)

/-- C5: when the send to `G` fails during a pass, every id of that pass's
point-in-time copy (in particular every id positioned after `G`) is still
attempted, `G` is removed from the active set, and the next pass does not
attempt a send to `G`. -/
theorem broadcast_failure_isolated (env : Env) (now now2 : Int)
    (s : BotState) (G : Int) (l₁ l₂ : List Int)
    (hact : s.activeGroups = l₁ ++ G :: l₂)
    (hfail : env.sendFails G = true) :
    (broadcastPass env now s).2 = l₁ ++ G :: l₂ ∧
    G ∉ (broadcastPass env now s).1.activeGroups ∧
    G ∉ (broadcastPass env now2 (broadcastPass env now s).1).2 := by
  have h1 : (broadcastPass env now s).2 = s.activeGroups :=
    broadcastPass_attempts env now s
  have h2 : G ∉ (broadcastPass env now s).1.activeGroups := by
    unfold broadcastPass
    rw [hact]
    exact broadcastAux_fail_removed env now l₁ l₂ G s hfail
  refine ⟨h1.trans hact, h2, ?_⟩
  rw [broadcastPass_attempts]
  exact h2

/-- Witness for C5: group 2 of `[1, 2, 3]` fails; 3 is still attempted, 2
leaves the active set and is skipped by the following pass. -/
theorem broadcast_failure_isolated_witness :
    (broadcastPass envFail2 0 sThree).2 = [1] ++ 2 :: [3] ∧
    2 ∉ (broadcastPass envFail2 0 sThree).1.activeGroups ∧
    2 ∉ (broadcastPass envFail2 1 (broadcastPass envFail2 0 sThree).1).2 :=
  broadcast_failure_isolated envFail2 0 1 sThree 2 [1] [3] rfl (by decide)

/-- C2 counterexample: the loop body of `send_links_periodically` runs the
broadcast pass first and sleeps after it, so with one active group the
trace of two iterations is send, sleep, send, sleep — a send (a broadcast
pass) occurs before the first sleep completes, refuting the sleep-first
ordering. -/
theorem broadcaster_sends_before_first_sleep :
    loopActions envOk 0 2 sOne
      = [BAction.send 1, BAction.sleep 86400,
         BAction.send 1, BAction.sleep 86400] ∧
    (loopActions envOk 0 2 sOne).head? = some (BAction.send 1) := by
  constructor <;> decide

/-- C2 amended: each iteration of the broadcaster loop first attempts a
send to every id of the point-in-time copy of the active set and then
sleeps for the configured interval; the first pass precedes the first
sleep. -/
theorem broadcaster_pass_then_sleep (env : Env) (now : Int) (n : Nat)
    (s : BotState) :
    loopActions env now (n + 1) s
      = s.activeGroups.map BAction.send
        ++ [BAction.sleep s.messageInterval]
        ++ loopActions env now n (broadcastPass env now s).1 ∧
    (loopActions env now (n + 1) s).take s.activeGroups.length
      = s.activeGroups.map BAction.send := by
  have hMI := broadcastPass_messageInterval env now s
  have h1 : loopActions env now (n + 1) s
      = s.activeGroups.map BAction.send
        ++ [BAction.sleep s.messageInterval]
        ++ loopActions env now n (broadcastPass env now s).1 := by
    simp [loopActions, hMI]
  refine ⟨h1, ?_⟩
  rw [h1, List.append_assoc]
  exact List.take_left' (by simp)

theorem mem_setAdd_self (x : Int) (s : List Int) : x ∈ setAdd x s := by
  unfold setAdd
  split
  · assumption
  · exact List.mem_cons_self x s

theorem send_welcome_activeGroups (cfg : Config) (env : Env) (now : Int)
    (s : BotState) (c : Int) :
    (send_welcome_and_link cfg env now s c).activeGroups = s.activeGroups := by
  unfold send_welcome_and_link
  cases env.getChat c with
  | none => rfl
  | some chat =>
    simp only
    split <;> rfl

/-- C1 counterexample: after an add, an authorized `/setlink
https://custom.example`, a removal and a re-add of chat 5, the registry's
single entry for chat 5 carries the surviving custom override — not
`Config.defaultLink` — because `left_member` deletes `GROUP_INFO` but not
`GROUP_LINKS`. -/
theorem override_survives_removal_readd :
    (dictGet 5 (run cfgW envOk (initState none) evsC1).groupInfo).map
        GroupInfo.link
      = some (some "https://custom.example") ∧
    getLink cfgW (run cfgW envOk (initState none) evsC1) 5
      = some "https://custom.example" ∧
    cfgW.defaultLink = some "https://default.example" := by
  refine ⟨?_, ?_, ?_⟩ <;> decide

/-- C1 amended: a removal event discards the chat's active status and its
`GROUP_INFO` record but leaves any `GROUP_LINKS` override in place; a later
re-add makes the chat active again with exactly one registry record, whose
link is the surviving override when one exists and `Config.defaultLink`
only when none was set. -/
theorem removal_then_readd_keeps_override (cfg : Config) (env : Env)
    (s : BotState) (chatId now : Int) (chat : Chat)
    (hchat : env.getChat chatId = some chat) :
    (left_member s chatId).groupLinks = s.groupLinks ∧
    dictGet chatId (left_member s chatId).groupInfo = none ∧
    chatId ∉ (left_member s chatId).activeGroups ∧
    keyCount chatId
        (new_member cfg env now (left_member s chatId) chatId).groupInfo = 1 ∧
    dictGet chatId
        (new_member cfg env now (left_member s chatId) chatId).groupInfo
      = some { title := chat.title, link := getLink cfg s chatId } ∧
    (dictGet chatId s.groupLinks = none →
      dictGet chatId
          (new_member cfg env now (left_member s chatId) chatId).groupInfo
        = some { title := chat.title, link := cfg.defaultLink }) ∧
    chatId ∈ (new_member cfg env now (left_member s chatId) chatId).activeGroups := by
  have hInfo : (new_member cfg env now (left_member s chatId) chatId).groupInfo
      = dictSet chatId { title := chat.title, link := getLink cfg s chatId }
          (dictDel chatId s.groupInfo) := by
    unfold new_member send_welcome_and_link
    rw [hchat]
    simp only [left_member]
    split <;> simp [getLink]
  refine ⟨rfl, dictGet_dictDel_self chatId s.groupInfo,
    not_mem_setDiscard chatId s.activeGroups, ?_, ?_, ?_, ?_⟩
  · rw [hInfo]
    exact keyCount_dictSet_self chatId _ _
  · rw [hInfo, dictGet_dictSet, if_pos rfl]
  · intro hnone
    rw [hInfo, dictGet_dictSet, if_pos rfl]
    simp [getLink, hnone]
  · have hact : (new_member cfg env now (left_member s chatId) chatId).activeGroups
        = setAdd chatId (left_member s chatId).activeGroups := by
      unfold new_member
      rw [send_welcome_activeGroups]
    rw [hact]
    exact mem_setAdd_self chatId _

/-- Witness for C1's amended statement on a state holding an override for
chat 5. -/
theorem removal_then_readd_keeps_override_witness :
    dictGet 5 (new_member cfgW envOk 33 (left_member sOv 5) 5).groupInfo
      = some { title := some "G", link := getLink cfgW sOv 5 } ∧
    dictGet 5 (left_member sOv 5).groupInfo = none ∧
    getLink cfgW sOv 5 = some "https://a" := by
  have h := removal_then_readd_keeps_override cfgW envOk sOv 5 33
    { id := 5, type := ChatType.group, title := some "G" } rfl
  exact ⟨h.2.2.2.2.1, h.2.1, by decide⟩

theorem show_link_fst (cfg : Config) (m : Message) (s : BotState) :
    (show_link cfg m s).1 = s := rfl

theorem show_stats_fst (cfg : Config) (m : Message) (s : BotState) :
    (show_stats cfg m s).1 = s := by
  unfold show_stats
  split <;> rfl

theorem set_interval_groupLinks (cfg : Config) (env : Env) (m : Message)
    (s : BotState) : (set_interval cfg env m s).1.groupLinks = s.groupLinks := by
  unfold set_interval
  split
  · rfl
  · split
    · rfl
    · split <;> rfl

theorem send_welcome_groupLinks (cfg : Config) (env : Env) (now : Int)
    (s : BotState) (c : Int) :
    (send_welcome_and_link cfg env now s c).groupLinks = s.groupLinks := by
  unfold send_welcome_and_link
  cases env.getChat c with
  | none => rfl
  | some chat =>
    simp only
    split <;> rfl

theorem overridesValid_set_link (cfg : Config) (env : Env) (m : Message)
    (s : BotState) (h : overridesValid s) :
    overridesValid (set_link cfg env m s).1 := by
  unfold set_link
  split
  · exact h
  · split
    · exact h
    · next u heq =>
      split
      · next hvalid =>
        intro k v hkv
        simp only at hkv
        rw [dictGet_dictSet] at hkv
        by_cases hk : k = m.chat.id
        · rw [if_pos hk] at hkv
          cases hkv
          exact hvalid
        · rw [if_neg hk] at hkv
          exact h k v hkv
      · exact h

theorem overridesValid_default_link (cfg : Config) (env : Env) (m : Message)
    (s : BotState) (h : overridesValid s) :
    overridesValid (default_link cfg env m s).1 := by
  unfold default_link
  split
  · exact h
  · intro k v hkv
    simp only at hkv
    by_cases hk : k = m.chat.id
    · rw [hk, dictGet_dictDel_self] at hkv
      cases hkv
    · rw [dictGet_dictDel_ne k m.chat.id _ hk] at hkv
      exact h k v hkv

theorem overridesValid_handleMessage (cfg : Config) (env : Env) (m : Message)
    (s : BotState) (h : overridesValid s) :
    overridesValid (handleMessage cfg env m s) := by
  unfold handleMessage
  split
  · exact h
  · split
    · exact overridesValid_set_link cfg env m s h
    · split
      · exact overridesValid_default_link cfg env m s h
      · split
        · intro k v hkv
          rw [set_interval_groupLinks] at hkv
          exact h k v hkv
        · split
          · rw [show_stats_fst]
            exact h
          · split
            · exact h
            · exact h

theorem overridesValid_step (cfg : Config) (env : Env) (s : BotState)
    (e : Event) (h : overridesValid s) : overridesValid (step cfg env s e) := by
  cases e with
  | command m => exact overridesValid_handleMessage cfg env m s h
  | botAdded chatId now =>
    intro k v hkv
    have hgl : (new_member cfg env now s chatId).groupLinks = s.groupLinks := by
      unfold new_member
      rw [send_welcome_groupLinks]
    rw [show (step cfg env s (Event.botAdded chatId now)
          = new_member cfg env now s chatId) from rfl, hgl] at hkv
    exact h k v hkv
  | botRemoved chatId => exact fun k v hkv => h k v hkv
  | tick now =>
    intro k v hkv
    have hgl : (broadcastPass env now s).1.groupLinks = s.groupLinks :=
      broadcastAux_groupLinks env now s.activeGroups s
    rw [show (step cfg env s (Event.tick now) = (broadcastPass env now s).1)
          from rfl, hgl] at hkv
    exact h k v hkv

theorem overridesValid_run (cfg : Config) (env : Env) (evs : List Event) :
    ∀ s, overridesValid s → overridesValid (run cfg env s evs) := by
  induction evs with
  | nil => exact fun s hs => hs
  | cons e rest ih =>
    intro s hs
    exact ih (step cfg env s e) (overridesValid_step cfg env s e hs)

/-- C7 counterexample: nothing validates `DEFAULT_LINK`, so with the
environment supplying a non-URL default, the reachable initial state's
`getLink` already yields a value failing the `http(s)://` shape. -/
theorem default_link_unvalidated :
    getLink cfgBadDefault (run cfgBadDefault envOk (initState none) []) 1
      = some "not-a-url" ∧
    isHttpUrl "not-a-url" = false := by
  constructor <;> decide

/-- C7 amended: in every reachable state, every custom override stored in
`GROUP_LINKS` begins with `http://` or `https://` (invalid `/setlink` input
never enters the registry); the `getLink` fallback, however, is the
unvalidated environment-provided `DEFAULT_LINK` and need not satisfy the
shape. -/
theorem reachable_overrides_valid (cfg : Config) (env : Env)
    (eh : Option Int) (evs : List Event) (k : Int) (v : String)
    (hv : dictGet k (run cfg env (initState eh) evs).groupLinks = some v) :
    isHttpUrl v = true := by
  have main := overridesValid_run cfg env evs
  have hinit : overridesValid (initState eh) := by
    intro k' v' hk'
    exact Option.noConfusion hk'
  exact main (initState eh) hinit k v hv

/-- Witness for C7's amended statement: the override stored by the
`/setlink` in `evsC1` passes the shape check. -/
theorem reachable_overrides_valid_witness :
    isHttpUrl "https://custom.example" = true :=
  reachable_overrides_valid cfgW envOk none evsC1 5 "https://custom.example"
    (by decide)

/-- C8: the broadcast interval defaults to 24 hours (86400 seconds) when
the environment variable is unset, and an authorized `/interval 1` sets the
process-wide interval so that the broadcaster's sleep between passes is
3600 seconds. -/
theorem interval_default_and_one_hour (cfg : Config) (env : Env)
    (m : Message) (s : BotState)
    (hauth : (is_admin cfg m.fromUserId || is_group_admin env m) = true)
    (htoks : pySplit m.text = ["/interval", "1"]) :
    initMessageInterval none = 24 * 3600 ∧
    (set_interval cfg env m s).1.messageInterval = 3600 ∧
    loopActions env 0 1 (set_interval cfg env m s).1
      = (set_interval cfg env m s).1.activeGroups.map BAction.send
        ++ [BAction.sleep 3600] := by
  have hA : is_admin cfg m.fromUserId = true ∨ is_group_admin env m = true := by
    simpa using hauth
  have hp : pyInt "1" = some 1 := by decide
  have hstate : (set_interval cfg env m s).1
      = { s with messageInterval := 1 * 3600 } := by
    unfold set_interval
    rw [if_neg (not_not_intro hA), htoks]
    simp [hp]
  refine ⟨by decide, ?_, ?_⟩
  · rw [hstate]
    norm_num
  · rw [hstate]
    simp [loopActions, broadcastPass_messageInterval]

/-- Witness for C8 at `/interval 1` from the process-wide admin. -/
theorem interval_default_and_one_hour_witness :
    initMessageInterval none = 24 * 3600 ∧
    (set_interval cfgW envOk mInterval1 (initState none)).1.messageInterval
      = 3600 ∧
    loopActions envOk 0 1 (set_interval cfgW envOk mInterval1 (initState none)).1
      = (set_interval cfgW envOk mInterval1
          (initState none)).1.activeGroups.map BAction.send
        ++ [BAction.sleep 3600] :=
  interval_default_and_one_hour cfgW envOk mInterval1 (initState none)
    (by decide) (by decide)

/-- C9: for every integer token — zero and negatives included — an
authorized `/interval h` is accepted: the process-wide interval becomes
`h * 3600` and the reply reports success; there is no positivity or
upper-bound check, so a zero or negative sleep duration is configurable. -/
theorem interval_accepts_any_integer (cfg : Config) (env : Env)
    (m : Message) (s : BotState) (t : String) (h : Int)
    (hauth : (is_admin cfg m.fromUserId || is_group_admin env m) = true)
    (htoks : pySplit m.text = ["/interval", t])
    (hint : pyInt t = some h) :
    set_interval cfg env m s
      = ({ s with messageInterval := h * 3600 },
         "⏰ Posting interval set to " ++ toString h ++ " hours") := by
  have hA : is_admin cfg m.fromUserId = true ∨ is_group_admin env m = true := by
    simpa using hauth
  unfold set_interval
  rw [if_neg (not_not_intro hA), htoks]
  simp [hint]

/-- Witness for C9 at the tokens `0` and `-3`. -/
theorem interval_accepts_any_integer_witness :
    set_interval cfgW envOk mInterval0 (initState none)
      = ({ initState none with messageInterval := 0 * 3600 },
         "⏰ Posting interval set to " ++ toString (0 : Int) ++ " hours") ∧
    set_interval cfgW envOk mIntervalNeg (initState none)
      = ({ initState none with messageInterval := (-3) * 3600 },
         "⏰ Posting interval set to " ++ toString (-3 : Int) ++ " hours") :=
  ⟨interval_accepts_any_integer cfgW envOk mInterval0 (initState none) "0" 0
      (by decide) (by decide) (by decide),
   interval_accepts_any_integer cfgW envOk mIntervalNeg (initState none)
      "-3" (-3) (by decide) (by decide) (by decide)⟩

/-- C10: an authorized `/setlink` stores an override keyed by the current
chat id whatever the chat type, without touching the active set; removal
deletes the chat's info record but not its override; hence reachable
states exist holding an override for an id outside the active set (here
chat 5, a never-activated private chat). -/
theorem override_domain_not_active (cfg : Config) (env : Env) (m : Message)
    (s : BotState) (u : String)
    (hadmin : is_admin cfg m.fromUserId = true)
    (hu : (pySplit m.text).get? 1 = some u)
    (hvalid : isHttpUrl u = true) :
    (dictGet m.chat.id (set_link cfg env m s).1.groupLinks = some u ∧
      (set_link cfg env m s).1.activeGroups = s.activeGroups) ∧
    (∀ s' cid, (left_member s' cid).groupLinks = s'.groupLinks ∧
      dictGet cid (left_member s' cid).groupInfo = none ∧
      cid ∉ (left_member s' cid).activeGroups) ∧
    (dictGet 5 (run cfgW envOk (initState none) evsPriv).groupLinks
        = some "https://x" ∧
      5 ∉ (run cfgW envOk (initState none) evsPriv).activeGroups) := by
  have hA : is_admin cfg m.fromUserId = true ∨ is_group_admin env m = true :=
    Or.inl hadmin
  refine ⟨?_, ?_, ?_⟩
  · unfold set_link
    rw [if_neg (not_not_intro hA), hu]
    constructor
    · simp [hvalid, dictGet_dictSet]
    · simp [hvalid]
  · intro s' cid
    exact ⟨rfl, dictGet_dictDel_self cid s'.groupInfo,
      not_mem_setDiscard cid s'.activeGroups⟩
  · constructor <;> decide

/-- Witness for C10: the private-chat `/setlink` stores the override. -/
theorem override_domain_not_active_witness :
    dictGet 5 (set_link cfgW envOk mPrivSet (initState none)).1.groupLinks
      = some "https://x" ∧
    (set_link cfgW envOk mPrivSet (initState none)).1.activeGroups
      = (initState none).activeGroups :=
  (override_domain_not_active cfgW envOk mPrivSet (initState none) "https://x"
      (by decide) (by decide) (by decide)).1
